import Mathlib

/-!
Shallow embedding of the Ubuntu Image Fetcher (src/main.py).

Each definition below mirrors one Python function of the source file and keeps
its name.  Byte strings are lists of byte values, the filesystem is an explicit
value threaded through the functions, and the two hash functions of the source
(hashlib.sha256 over byte content, the builtin hash over the URL string) are
uninterpreted parameters, since every property at stake depends only on what
the code does with the digests, not on the digests themselves.

Theorems named after claim identifiers settle the corresponding claims; the
remaining lemmas are shared infrastructure.
-/

namespace Fetcher

/-- Byte content of a response body or of a file on disk. -/
abbrev Bytes := List Nat

/-! ### String helpers

String operations are defined over the character list of the string so that
they compute by plain recursion.  Python str.lower is Unicode aware; the
header values and messages handled by the program are ASCII, for which the
ASCII mapping below agrees with it. -/

/-- Lowercases one ASCII character, leaving every other character unchanged. -/
def lowerChar (c : Char) : Char :=
  if 'A' ≤ c ∧ c ≤ 'Z' then Char.ofNat (c.toNat + 32) else c

/-- Lowercases a string character by character, the model of Python str.lower. -/
def lowerStr (s : String) : String :=
  ⟨s.toList.map lowerChar⟩

/-- Boolean test that the list p is an initial run of the list s. -/
def leadsWith (p s : List Char) : Bool :=
  match p, s with
  | [], _ => true
  | _ :: _, [] => false
  | a :: ps, b :: cs => a == b && leadsWith ps cs

/-- Boolean test that the list p occurs contiguously inside the list s,
the model of the Python substring test p in s. -/
def occursIn (p s : List Char) : Bool :=
  match s with
  | [] => leadsWith p []
  | _ :: cs => leadsWith p s || occursIn p cs

/-- Model of Python str.startswith. -/
def startsWithStr (s p : String) : Bool :=
  leadsWith p.toList s.toList

/-- Model of the Python membership test p in s on strings. -/
def strContainsSub (s p : String) : Bool :=
  occursIn p.toList s.toList

/-- Characters stripped by int() around a numeral.  Python also strips the
less common ASCII and Unicode space characters; the header values handled
here use at most plain spaces. -/
def pyWhitespace (c : Char) : Bool :=
  c = ' ' ∨ c = '\t' ∨ c = '\n' ∨ c = '\r'

/-- Model of Python int(s) on a string: surrounding whitespace is stripped,
an optional sign is read, and the remaining characters must be a nonempty
run of decimal digits; otherwise int raises ValueError, modelled as none.
Underscore separators and non-ASCII digits are not modelled. -/
def pyInt (s : String) : Option Int :=
  let t := ((s.toList.dropWhile pyWhitespace).reverse.dropWhile pyWhitespace).reverse
  let sd : Int × List Char :=
    match t with
    | '-' :: rest => (-1, rest)
    | '+' :: rest => (1, rest)
    | _ => (1, t)
  if sd.2 ≠ [] ∧ sd.2.all Char.isDigit then
    some (sd.1 * ((sd.2.foldl (fun acc c => 10 * acc + (c.toNat - '0'.toNat)) 0 : Nat) : Int))
  else none

/-! ### Data model -/

/-- The two response headers the program reads.  A field holds none when the
header is absent from the response. -/
structure Headers where
  contentType : Option String
  contentLength : Option String
deriving Repr, DecidableEq

/-- The one Python exception the embedded pure code can raise itself:
ValueError from int() on a malformed Content-Length value. -/
inductive PyExn where
  | valueError (s : String)
deriving Repr, DecidableEq

/-- Message text of an embedded exception, after the message int() produces. -/
def pyExnMsg : PyExn → String
  | .valueError s => "invalid literal for int with base 10: " ++ s

/-- Embeds validate_image_headers from src/main.py.  headers.get with a
default of the empty string models the Content-Type lookup, and the truth
test on the Content-Length value is false exactly for an absent header or an
empty value.  int(content_length) raising ValueError is the error case.  The
Python float comparison int(cl) / (1024 * 1024) > 50 is modelled by the exact
integer comparison 50 * 1024 * 1024 < n, with which it agrees (division of an
integer by a power of two is exact in binary floating point below 2 ^ 53 and
the comparison is monotone above it).  The reason strings follow the source
up to quoting and float formatting. -/
def validate_image_headers (h : Headers) : Except PyExn (Bool × String) :=
  let content_type := lowerStr (h.contentType.getD "")
  let content_length := h.contentLength.getD ""
  if ¬ startsWithStr content_type "image/" then
    .ok (false, "Content-Type " ++ content_type ++ " is not an image")
  else if content_length ≠ "" then
    match pyInt content_length with
    | none => .error (.valueError content_length)
    | some n =>
      if 50 * 1024 * 1024 < n then
        .ok (false, "File size (" ++ toString (n / (1024 * 1024)) ++ "MB) exceeds safety limit of 50MB")
      else
        .ok (true, "Valid image headers")
  else
    .ok (true, "Valid image headers")

/-- True when the validator returned an accepting decision. -/
def accepted : Except PyExn (Bool × String) → Bool
  | .ok (true, _) => true
  | _ => false

/-! ### Filename resolution -/

/-- Characters allowed in a URL scheme after its leading letter. -/
def isSchemeChar (c : Char) : Bool :=
  c.isAlpha || c.isDigit || c == '+' || c == '-' || c == '.'

/-- Path component of urlparse(url): the fragment (from the first hash sign)
is removed, then a syntactically valid scheme (a letter followed by letters,
digits, plus, minus or dot, up to a colon) is stripped, then after a double
slash the network location runs to the next slash or question mark, and the
query (from the first question mark) is cut off.  This mirrors the part of
urllib.parse.urlparse the program uses. -/
def urlPath (url : String) : String :=
  let u := url.toList.takeWhile (· ≠ '#')
  let u :=
    let pre := u.takeWhile (· ≠ ':')
    let headAlpha : Bool := match pre with | c :: _ => c.isAlpha | [] => false
    if (decide (pre.length < u.length) && headAlpha && pre.all isSchemeChar) = true then
      u.drop (pre.length + 1)
    else u
  let u :=
    if u.take 2 = ['/', '/'] then
      (u.drop 2).dropWhile (fun c => ¬ (c = '/' ∨ c = '?'))
    else u
  ⟨u.takeWhile (· ≠ '?')⟩

/-- Model of os.path.basename on a POSIX path: the run after the last slash. -/
def basename (p : String) : String :=
  ⟨(p.toList.reverse.takeWhile (· ≠ '/')).reverse⟩

/-- The mime_to_ext dictionary of get_filename_from_url, as a lookup. -/
def mime_to_ext (ct : String) : Option String :=
  if ct = "image/jpeg" then some ".jpg"
  else if ct = "image/png" then some ".png"
  else if ct = "image/gif" then some ".gif"
  else if ct = "image/webp" then some ".webp"
  else if ct = "image/svg+xml" then some ".svg"
  else if ct = "image/bmp" then some ".bmp"
  else none

/-- Embeds get_filename_from_url from src/main.py.  strHash stands for the
builtin Python hash on strings, an uninterpreted non-cryptographic hash; the
Python remainder hash(url) % 10000 is the Euclidean remainder, which Int.emod
matches for a positive modulus.  The truth test on content_type is false for
None and for the empty string. -/
def get_filename_from_url (strHash : String → Int) (url : String)
    (content_type : Option String := none) : String :=
  let filename := basename (urlPath url)
  if filename = "" ∨ ¬ filename.toList.contains '.' then
    let extension :=
      match content_type with
      | none => ".jpg"
      | some ct => if ct = "" then ".jpg" else (mime_to_ext (lowerStr ct)).getD ".jpg"
    "downloaded_image_" ++ toString (strHash url % 10000) ++ extension
  else
    filename

/-! ### Filesystem model and duplicate detection -/

/-- One entry of os.listdir on the target directory: its name, whether it is
a regular file (os.path.isfile), and, for a regular file, its byte content. -/
structure Entry where
  name : String
  isFile : Bool
  content : Bytes
deriving Repr, DecidableEq

/-- The target directory: none when it does not exist, otherwise its listing. -/
abbrev Dir := Option (List Entry)

/-- Embeds get_file_hash from src/main.py.  The source reads the file in
4096-byte blocks and feeds each block into one running SHA-256 object, which
yields the digest of the whole content; hashFn stands for that digest. -/
def get_file_hash (hashFn : Bytes → String) (e : Entry) : String :=
  hashFn e.content

/-- The scan loop of is_duplicate over the directory listing, in order:
entries that are not regular files are skipped, and the first regular file
whose digest equals the candidate digest is returned. -/
def is_duplicate_scan (hashFn : Bytes → String) (content_hash : String) :
    List Entry → Bool × Option String
  | [] => (false, none)
  | e :: rest =>
    if e.isFile then
      if get_file_hash hashFn e = content_hash then (true, some e.name)
      else is_duplicate_scan hashFn content_hash rest
    else is_duplicate_scan hashFn content_hash rest

/-- Embeds is_duplicate from src/main.py.  hashFn stands for the SHA-256
hexdigest on byte content.  A nonexistent directory yields no match. -/
def is_duplicate (hashFn : Bytes → String) (content : Bytes) (directory : Dir) :
    Bool × Option String :=
  let content_hash := hashFn content
  match directory with
  | none => (false, none)
  | some entries => is_duplicate_scan hashFn content_hash entries

/-- Model of open(filepath, "wb") followed by write: the entry of that name
is replaced by a regular file holding the content, or a new entry is added.
The case of the name denoting an existing subdirectory, where open would
raise, is not exercised by the claims. -/
def writeFile : List Entry → String → Bytes → List Entry
  | [], name, content => [⟨name, true, content⟩]
  | e :: rest, name, content =>
    if e.name = name then ⟨name, true, content⟩ :: rest
    else e :: writeFile rest name content

/-! ### The Fetcher -/

/-- The response the HTTP GET produced, when one was produced at all. -/
structure Response where
  status : Nat
  reason : String
  headers : Headers
  content : Bytes
deriving Repr, DecidableEq

/-- Outcome of the requests.get call for one URL: one of the exception
classes download_image catches, or a response.  otherError covers any
exception outside the requests hierarchy. -/
inductive FetchOutcome where
  | timeout
  | connectionError
  | requestError (msg : String)
  | otherError (msg : String)
  | response (r : Response)
deriving Repr, DecidableEq

/-- Environment of one download_image call: what the network did, and
whether writing the destination file raises IOError (with which message). -/
structure Env where
  fetch : FetchOutcome
  writeExn : Option String
deriving Repr, DecidableEq

/-- True for the fetch outcomes that are exceptions of the request itself. -/
def fetchFailed : FetchOutcome → Bool
  | .response _ => false
  | _ => true

/-- The duplicate check, filename resolution and write of download_image
(the part of the source after validation passed), split out so that each
stage of the control flow rewrites cleanly in proofs. -/
def save_image (hashFn : Bytes → String) (strHash : String → Int)
    (url : String) (dir : List Entry) (content : Bytes) (ctype : Option String)
    (writeExn : Option String) (check_duplicates : Bool) : (Bool × String) × Dir :=
  let dup :=
    if check_duplicates then is_duplicate hashFn content (some dir)
    else (false, none)
  if dup.1 then
    let dup_filename := dup.2.getD ""
    ((false, "⚠ Image already exists as: " ++ dup_filename ++ " (duplicate skipped)"), some dir)
  else
    let filename := get_filename_from_url strHash url ctype
    match writeExn with
    | some m =>
      ((false, "✗ File error: Could not save image - " ++ m), some dir)
    | none =>
      ((true, "✓ Successfully fetched: " ++ filename), some (writeFile dir filename content))

/-- The handling of a received response inside download_image:
raise_for_status (HTTPError for a status in 400..599), header validation
(with a ValueError from the validator landing in the generic except Exception
handler of the source), then save_image. -/
def handle_response (hashFn : Bytes → String) (strHash : String → Int)
    (url : String) (dir : List Entry) (r : Response)
    (writeExn : Option String) (check_duplicates : Bool) : (Bool × String) × Dir :=
  if 400 ≤ r.status ∧ r.status ≤ 599 then
    ((false, "✗ HTTP error: " ++ toString r.status ++ " - " ++ r.reason), some dir)
  else
    match validate_image_headers r.headers with
    | .error e =>
      ((false, "✗ Unexpected error: " ++ pyExnMsg e), some dir)
    | .ok (is_valid, validation_msg) =>
      if ¬ is_valid then
        ((false, "✗ Validation failed: " ++ validation_msg), some dir)
      else
        save_image hashFn strHash url dir r.content r.headers.contentType writeExn check_duplicates

/-- Embeds download_image from src/main.py as a function from the request
environment and the directory state to the returned (success, message) pair
and the new directory state.  os.makedirs(directory, exist_ok=True) turns an
absent directory into an empty one, then the five except clauses of the
source and the response handling above give the result.  The success
message keeps the marker and filename of the source without the kilobyte
figure. -/
def download_image (hashFn : Bytes → String) (strHash : String → Int)
    (env : Env) (url : String) (directory : Dir)
    (check_duplicates : Bool := true) : (Bool × String) × Dir :=
  let dir : List Entry := directory.getD []
  match env.fetch with
  | .timeout =>
    ((false, "✗ Connection timeout: Server took too long to respond"), some dir)
  | .connectionError =>
    ((false, "✗ Connection error: Could not reach the server"), some dir)
  | .requestError msg =>
    ((false, "✗ Request error: " ++ msg), some dir)
  | .otherError msg =>
    ((false, "✗ Unexpected error: " ++ msg), some dir)
  | .response r =>
    handle_response hashFn strHash url dir r env.writeExn check_duplicates

/-! ### The driver -/

/-- The three counters of main. -/
structure Tally where
  success_count : Nat
  skip_count : Nat
  fail_count : Nat
deriving Repr, DecidableEq

/-- One classification step of the driver loop: a success counts as a
download, otherwise the outcome counts as a skip exactly when the lowercased
message contains the word duplicate, else as a failure. -/
def tally_update (t : Tally) (success : Bool) (message : String) : Tally :=
  if success then { t with success_count := t.success_count + 1 }
  else if strContainsSub (lowerStr message) "duplicate" then
    { t with skip_count := t.skip_count + 1 }
  else
    { t with fail_count := t.fail_count + 1 }

/-- The per-URL loop of main: each URL is paired with its request
environment, download_image runs with duplicate checking enabled, the tally
is updated from the returned pair, and the directory state is threaded to
the next iteration. -/
def main_loop (hashFn : Bytes → String) (strHash : String → Int) :
    List (String × Env) → Dir → Tally → Tally × Dir
  | [], dir, t => (t, dir)
  | (url, env) :: rest, dir, t =>
    let step := download_image hashFn strHash env url dir true
    main_loop hashFn strHash rest step.2 (tally_update t step.1.1 step.1.2)

/-! ### Concrete instantiations used in closed statements -/

/-- A concrete stand-in digest for closed statements: the decimal length of
the content, which separates the contents appearing in those statements. -/
def lenHash (b : Bytes) : String := toString b.length

/-- A concrete stand-in for the builtin string hash in closed statements. -/
def zeroHash (_ : String) : Int := 0

/-! ### String lemmas -/

/-- Appending strings appends their character lists. -/
theorem toList_append (a b : String) : (a ++ b).toList = a.toList ++ b.toList := by
  cases a
  cases b
  rfl

/-- A string whose character list is nonempty is not the empty string. -/
theorem ne_empty_of_toList_ne_nil {s : String} (h : s.toList ≠ []) : s ≠ "" := by
  intro he
  rw [he] at h
  exact h rfl

/-- Appending to a string with nonempty character list keeps it nonempty. -/
theorem toList_append_ne_nil (a b : String) (h : a.toList ≠ []) : (a ++ b).toList ≠ [] := by
  rw [toList_append]
  intro hh
  exact h (List.append_eq_nil.mp hh).1

/-- A string with a nonempty left part appended is nonempty. -/
theorem append_ne_empty (a b : String) (h : a.toList ≠ []) : a ++ b ≠ "" :=
  ne_empty_of_toList_ne_nil (toList_append_ne_nil a b h)

/-- An initial run of a list is an initial run of any extension of it. -/
theorem leadsWith_append (p a b : List Char) (h : leadsWith p a = true) :
    leadsWith p (a ++ b) = true := by
  induction p generalizing a with
  | nil => rfl
  | cons c ps ih =>
    cases a with
    | nil => exact absurd h (by simp [leadsWith])
    | cons x xs =>
      simp only [leadsWith, Bool.and_eq_true] at h ⊢
      exact ⟨h.1, ih xs h.2⟩

/-- A string with p at its head still has p at its head after appending. -/
theorem startsWithStr_append_left (a b p : String) (h : startsWithStr a p = true) :
    startsWithStr (a ++ b) p = true := by
  unfold startsWithStr at h ⊢
  rw [toList_append]
  exact leadsWith_append _ _ _ h

/-- A contiguous occurrence inside b is one inside a ++ b. -/
theorem occursIn_append_left (p a b : List Char) (h : occursIn p b = true) :
    occursIn p (a ++ b) = true := by
  induction a with
  | nil => exact h
  | cons c cs ih =>
    simp only [List.cons_append, occursIn, Bool.or_eq_true]
    exact Or.inr ih

/-- The duplicate-skip message of download_image contains the word duplicate
after lowercasing, whatever filename the duplicate detector reported. -/
theorem dup_message_contains (fn : String) :
    strContainsSub
      (lowerStr ("⚠ Image already exists as: " ++ fn ++ " (duplicate skipped)"))
      "duplicate" = true := by
  show occursIn _ (List.map lowerChar (("⚠ Image already exists as: " ++ fn ++ " (duplicate skipped)").toList)) = true
  rw [toList_append, toList_append, List.map_append, List.map_append, List.append_assoc]
  apply occursIn_append_left
  apply occursIn_append_left
  decide

/-! ### Duplicate-detector lemmas -/

/-- The scan loop computes the boolean by List.any and the filename by
List.find? over the regular-file-with-equal-digest predicate. -/
theorem is_duplicate_scan_eq (hashFn : Bytes → String) (h : String) (entries : List Entry) :
    is_duplicate_scan hashFn h entries =
      (entries.any (fun e => e.isFile && decide (hashFn e.content = h)),
        (entries.find? (fun e => e.isFile && decide (hashFn e.content = h))).map Entry.name) := by
  induction entries with
  | nil => rfl
  | cons e rest ih =>
    by_cases hf : e.isFile = true
    · by_cases he : hashFn e.content = h
      · simp [is_duplicate_scan, get_file_hash, hf, he, List.find?_cons_of_pos]
      · simp [is_duplicate_scan, get_file_hash, hf, he, ih, List.find?_cons_of_neg]
    · simp [is_duplicate_scan, hf, ih, List.find?_cons_of_neg]

/-- The boolean of is_duplicate on an existing directory is the existence of
a regular file with the candidate digest. -/
theorem is_duplicate_fst_iff (hashFn : Bytes → String) (content : Bytes) (entries : List Entry) :
    (is_duplicate hashFn content (some entries)).1 = true ↔
      ∃ e ∈ entries, e.isFile = true ∧ hashFn e.content = hashFn content := by
  show (is_duplicate_scan hashFn (hashFn content) entries).1 = true ↔ _
  rw [is_duplicate_scan_eq]
  simp [List.any_eq_true, Bool.and_eq_true, decide_eq_true_eq, and_assoc]

/-- The entry written by writeFile is listed in the result. -/
theorem writeFile_mem (entries : List Entry) (name : String) (content : Bytes) :
    (⟨name, true, content⟩ : Entry) ∈ writeFile entries name content := by
  induction entries with
  | nil => exact List.mem_singleton.mpr rfl
  | cons e rest ih =>
    by_cases he : e.name = name
    · simp [writeFile, he]
    · simp only [writeFile, he, if_false]
      exact List.mem_cons_of_mem e ih

/-- The accepting decisions are exactly the ok results with a true flag. -/
theorem accepted_eq_true_iff (x : Except PyExn (Bool × String)) :
    accepted x = true ↔ ∃ m, x = .ok (true, m) := by
  cases x with
  | error e => simp [accepted]
  | ok p =>
    obtain ⟨b, m⟩ := p
    cases b <;> simp [accepted]

/-! ### download_image lemmas -/

/-- A request-level exception produces a failed result with a nonempty
message and leaves the directory as makedirs left it. -/
theorem download_image_fetchFailed (hashFn : Bytes → String) (strHash : String → Int)
    (env : Env) (url : String) (directory : Dir) (cd : Bool)
    (h : fetchFailed env.fetch = true) :
    (download_image hashFn strHash env url directory cd).1.1 = false ∧
    (download_image hashFn strHash env url directory cd).1.2 ≠ "" ∧
    (download_image hashFn strHash env url directory cd).2 = some (directory.getD []) := by
  unfold download_image
  cases henv : env.fetch with
  | timeout =>
    refine ⟨rfl, ?_, rfl⟩
    show "✗ Connection timeout: Server took too long to respond" ≠ ""
    decide
  | connectionError =>
    refine ⟨rfl, ?_, rfl⟩
    show "✗ Connection error: Could not reach the server" ≠ ""
    decide
  | requestError m =>
    refine ⟨rfl, ?_, rfl⟩
    show "✗ Request error: " ++ m ≠ ""
    exact append_ne_empty _ _ (by decide)
  | otherError m =>
    refine ⟨rfl, ?_, rfl⟩
    show "✗ Unexpected error: " ++ m ≠ ""
    exact append_ne_empty _ _ (by decide)
  | response r => rw [henv] at h; exact absurd h (by simp [fetchFailed])

/-- Unfolding of download_image on a received response. -/
theorem download_image_response_eq (hashFn : Bytes → String) (strHash : String → Int)
    (env : Env) (url : String) (directory : Dir) (cd : Bool) (r : Response)
    (hf : env.fetch = .response r) :
    download_image hashFn strHash env url directory cd =
      handle_response hashFn strHash url (directory.getD []) r env.writeExn cd := by
  unfold download_image
  rw [hf]

/-- handle_response on an error status: raise_for_status throws, caught as
an HTTP error. -/
theorem handle_response_http (hashFn : Bytes → String) (strHash : String → Int)
    (url : String) (dir : List Entry) (r : Response) (writeExn : Option String) (cd : Bool)
    (h4 : 400 ≤ r.status) (h5 : r.status ≤ 599) :
    handle_response hashFn strHash url dir r writeExn cd =
      ((false, "✗ HTTP error: " ++ toString r.status ++ " - " ++ r.reason), some dir) := by
  unfold handle_response
  rw [if_pos (And.intro h4 h5)]

/-- handle_response on a validator exception: the generic handler reports
an unexpected error. -/
theorem handle_response_exn (hashFn : Bytes → String) (strHash : String → Int)
    (url : String) (dir : List Entry) (r : Response) (writeExn : Option String) (cd : Bool)
    (e : PyExn) (hst : ¬ (400 ≤ r.status ∧ r.status ≤ 599))
    (he : validate_image_headers r.headers = .error e) :
    handle_response hashFn strHash url dir r writeExn cd =
      ((false, "✗ Unexpected error: " ++ pyExnMsg e), some dir) := by
  unfold handle_response
  rw [if_neg hst, he]

/-- handle_response on a rejecting verdict: validation failed, no write. -/
theorem handle_response_invalid (hashFn : Bytes → String) (strHash : String → Int)
    (url : String) (dir : List Entry) (r : Response) (writeExn : Option String) (cd : Bool)
    (m : String) (hst : ¬ (400 ≤ r.status ∧ r.status ≤ 599))
    (hm : validate_image_headers r.headers = .ok (false, m)) :
    handle_response hashFn strHash url dir r writeExn cd =
      ((false, "✗ Validation failed: " ++ m), some dir) := by
  unfold handle_response
  rw [if_neg hst, hm]
  rfl

/-- handle_response on an accepting verdict hands over to save_image. -/
theorem handle_response_valid (hashFn : Bytes → String) (strHash : String → Int)
    (url : String) (dir : List Entry) (r : Response) (writeExn : Option String) (cd : Bool)
    (m : String) (hst : ¬ (400 ≤ r.status ∧ r.status ≤ 599))
    (hm : validate_image_headers r.headers = .ok (true, m)) :
    handle_response hashFn strHash url dir r writeExn cd =
      save_image hashFn strHash url dir r.content r.headers.contentType writeExn cd := by
  unfold handle_response
  rw [if_neg hst, hm]
  rfl

/-- save_image when the duplicate scan hits: the skip message carries the
scanned filename and nothing is written. -/
theorem save_image_dup (hashFn : Bytes → String) (strHash : String → Int)
    (url : String) (dir : List Entry) (content : Bytes) (ctype : Option String)
    (writeExn : Option String)
    (hd : (is_duplicate hashFn content (some dir)).1 = true) :
    save_image hashFn strHash url dir content ctype writeExn true =
      ((false, "⚠ Image already exists as: " ++
          ((is_duplicate hashFn content (some dir)).2.getD "") ++
          " (duplicate skipped)"), some dir) := by
  unfold save_image
  show (if (if true = true then is_duplicate hashFn content (some dir)
        else (false, none)).1 = true then _ else _) = _
  rw [if_pos rfl, if_pos hd]

/-- save_image when the scan misses and the write goes through. -/
theorem save_image_write (hashFn : Bytes → String) (strHash : String → Int)
    (url : String) (dir : List Entry) (content : Bytes) (ctype : Option String)
    (hd : (is_duplicate hashFn content (some dir)).1 = false) :
    save_image hashFn strHash url dir content ctype none true =
      ((true, "✓ Successfully fetched: " ++ get_filename_from_url strHash url ctype),
        some (writeFile dir (get_filename_from_url strHash url ctype) content)) := by
  unfold save_image
  show (if (if true = true then is_duplicate hashFn content (some dir)
        else (false, none)).1 = true then _ else _) = _
  rw [if_pos rfl, if_neg (by rw [hd]; exact Bool.false_ne_true)]

/-- save_image when the scan misses and the write raises IOError. -/
theorem save_image_writeFail (hashFn : Bytes → String) (strHash : String → Int)
    (url : String) (dir : List Entry) (content : Bytes) (ctype : Option String) (m : String)
    (hd : (is_duplicate hashFn content (some dir)).1 = false) :
    save_image hashFn strHash url dir content ctype (some m) true =
      ((false, "✗ File error: Could not save image - " ++ m), some dir) := by
  unfold save_image
  show (if (if true = true then is_duplicate hashFn content (some dir)
        else (false, none)).1 = true then _ else _) = _
  rw [if_pos rfl, if_neg (by rw [hd]; exact Bool.false_ne_true)]

/-- An error status makes raise_for_status throw, caught as an HTTP error. -/
theorem download_image_httpError (hashFn : Bytes → String) (strHash : String → Int)
    (env : Env) (url : String) (directory : Dir) (cd : Bool) (r : Response)
    (hf : env.fetch = .response r) (h4 : 400 ≤ r.status) (h5 : r.status ≤ 599) :
    (download_image hashFn strHash env url directory cd).1.1 = false ∧
    (download_image hashFn strHash env url directory cd).1.2 ≠ "" ∧
    (download_image hashFn strHash env url directory cd).2 = some (directory.getD []) := by
  rw [download_image_response_eq hashFn strHash env url directory cd r hf,
    handle_response_http hashFn strHash url (directory.getD []) r env.writeExn cd h4 h5]
  refine ⟨rfl, ?_, rfl⟩
  show "✗ HTTP error: " ++ toString r.status ++ " - " ++ r.reason ≠ ""
  exact append_ne_empty _ _ (toList_append_ne_nil _ _ (toList_append_ne_nil _ _ (by decide)))

/-- A validator exception lands in the generic handler as an unexpected
error. -/
theorem download_image_validatorExn (hashFn : Bytes → String) (strHash : String → Int)
    (env : Env) (url : String) (directory : Dir) (cd : Bool) (r : Response) (e : PyExn)
    (hf : env.fetch = .response r) (hs : ¬ (400 ≤ r.status ∧ r.status ≤ 599))
    (he : validate_image_headers r.headers = .error e) :
    (download_image hashFn strHash env url directory cd).1.1 = false ∧
    (download_image hashFn strHash env url directory cd).1.2 ≠ "" ∧
    (download_image hashFn strHash env url directory cd).2 = some (directory.getD []) := by
  rw [download_image_response_eq hashFn strHash env url directory cd r hf,
    handle_response_exn hashFn strHash url (directory.getD []) r env.writeExn cd e hs he]
  refine ⟨rfl, ?_, rfl⟩
  show "✗ Unexpected error: " ++ pyExnMsg e ≠ ""
  exact append_ne_empty _ _ (by decide)

/-- A rejecting validator verdict produces the validation-failed result and
leaves the directory as makedirs left it. -/
theorem download_image_invalid (hashFn : Bytes → String) (strHash : String → Int)
    (env : Env) (url : String) (directory : Dir) (cd : Bool) (r : Response) (m : String)
    (hf : env.fetch = .response r) (hs : ¬ (400 ≤ r.status ∧ r.status ≤ 599))
    (hm : validate_image_headers r.headers = .ok (false, m)) :
    download_image hashFn strHash env url directory cd =
      ((false, "✗ Validation failed: " ++ m), some (directory.getD [])) := by
  rw [download_image_response_eq hashFn strHash env url directory cd r hf,
    handle_response_invalid hashFn strHash url (directory.getD []) r env.writeExn cd m hs hm]

/-- With an accepted response and a duplicate already on disk, the result is
the duplicate-skip message built from the scan result, with no write. -/
theorem download_image_dup_eq (hashFn : Bytes → String) (strHash : String → Int)
    (env : Env) (url : String) (directory : Dir) (r : Response)
    (hf : env.fetch = .response r) (hs : ¬ (400 ≤ r.status ∧ r.status ≤ 599))
    (hv : accepted (validate_image_headers r.headers) = true)
    (hd : (is_duplicate hashFn r.content (some (directory.getD []))).1 = true) :
    download_image hashFn strHash env url directory true =
      ((false, "⚠ Image already exists as: " ++
          ((is_duplicate hashFn r.content (some (directory.getD []))).2.getD "") ++
          " (duplicate skipped)"), some (directory.getD [])) := by
  obtain ⟨m, hm⟩ := (accepted_eq_true_iff _).mp hv
  rw [download_image_response_eq hashFn strHash env url directory true r hf,
    handle_response_valid hashFn strHash url (directory.getD []) r env.writeExn true m hs hm,
    save_image_dup hashFn strHash url (directory.getD []) r.content r.headers.contentType
      env.writeExn hd]

/-- With an accepted response, no duplicate, and a healthy write, the
download succeeds and writes the body under the derived filename. -/
theorem download_image_success_eq (hashFn : Bytes → String) (strHash : String → Int)
    (env : Env) (url : String) (directory : Dir) (r : Response)
    (hf : env.fetch = .response r) (hs : ¬ (400 ≤ r.status ∧ r.status ≤ 599))
    (hv : accepted (validate_image_headers r.headers) = true)
    (hd : (is_duplicate hashFn r.content (some (directory.getD []))).1 = false)
    (hw : env.writeExn = none) :
    download_image hashFn strHash env url directory true =
      ((true, "✓ Successfully fetched: " ++ get_filename_from_url strHash url r.headers.contentType),
        some (writeFile (directory.getD [])
          (get_filename_from_url strHash url r.headers.contentType) r.content)) := by
  obtain ⟨m, hm⟩ := (accepted_eq_true_iff _).mp hv
  rw [download_image_response_eq hashFn strHash env url directory true r hf,
    handle_response_valid hashFn strHash url (directory.getD []) r env.writeExn true m hs hm,
    hw, save_image_write hashFn strHash url (directory.getD []) r.content
      r.headers.contentType hd]

/-- With an accepted response and no duplicate, a raising write is caught
and reported as a file error, with the directory left as makedirs left it. -/
theorem download_image_writeExn (hashFn : Bytes → String) (strHash : String → Int)
    (env : Env) (url : String) (directory : Dir) (r : Response) (m : String)
    (hf : env.fetch = .response r) (hs : ¬ (400 ≤ r.status ∧ r.status ≤ 599))
    (hv : accepted (validate_image_headers r.headers) = true)
    (hd : (is_duplicate hashFn r.content (some (directory.getD []))).1 = false)
    (hw : env.writeExn = some m) :
    download_image hashFn strHash env url directory true =
      ((false, "✗ File error: Could not save image - " ++ m), some (directory.getD [])) := by
  obtain ⟨vm, hm⟩ := (accepted_eq_true_iff _).mp hv
  rw [download_image_response_eq hashFn strHash env url directory true r hf,
    handle_response_valid hashFn strHash url (directory.getD []) r env.writeExn true vm hs hm,
    hw, save_image_writeFail hashFn strHash url (directory.getD []) r.content
      r.headers.contentType m hd]

/-- A successful download can only have come from a response, an accepting
validator verdict, a healthy write, and, when duplicate checking is on, a
negative duplicate scan; the poststate is the write of the body under the
derived filename. -/
theorem download_image_success_inv (hashFn : Bytes → String) (strHash : String → Int)
    (env : Env) (url : String) (directory : Dir)
    (h : (download_image hashFn strHash env url directory true).1.1 = true) :
    ∃ r, env.fetch = .response r ∧ ¬ (400 ≤ r.status ∧ r.status ≤ 599) ∧
      accepted (validate_image_headers r.headers) = true ∧ env.writeExn = none ∧
      (is_duplicate hashFn r.content (some (directory.getD []))).1 = false ∧
      download_image hashFn strHash env url directory true =
        ((true, "✓ Successfully fetched: " ++ get_filename_from_url strHash url r.headers.contentType),
          some (writeFile (directory.getD [])
            (get_filename_from_url strHash url r.headers.contentType) r.content)) := by
  cases henv : env.fetch with
  | timeout =>
    rw [(download_image_fetchFailed hashFn strHash env url directory true (by rw [henv]; rfl)).1] at h
    simp at h
  | connectionError =>
    rw [(download_image_fetchFailed hashFn strHash env url directory true (by rw [henv]; rfl)).1] at h
    simp at h
  | requestError m =>
    rw [(download_image_fetchFailed hashFn strHash env url directory true (by rw [henv]; rfl)).1] at h
    simp at h
  | otherError m =>
    rw [(download_image_fetchFailed hashFn strHash env url directory true (by rw [henv]; rfl)).1] at h
    simp at h
  | response r =>
    by_cases hst : 400 ≤ r.status ∧ r.status ≤ 599
    · rw [(download_image_httpError hashFn strHash env url directory true r henv hst.1 hst.2).1] at h
      simp at h
    · cases hval : validate_image_headers r.headers with
      | error e =>
        rw [(download_image_validatorExn hashFn strHash env url directory true r e henv hst hval).1] at h
        simp at h
      | ok p =>
        obtain ⟨b, m⟩ := p
        cases b with
        | false =>
          rw [download_image_invalid hashFn strHash env url directory true r m henv hst hval] at h
          simp at h
        | true =>
          have hacc : accepted (validate_image_headers r.headers) = true := by
            rw [hval]; rfl
          by_cases hdup : (is_duplicate hashFn r.content (some (directory.getD []))).1 = true
          · rw [download_image_dup_eq hashFn strHash env url directory r henv hst hacc hdup] at h
            simp at h
          · have hdup2 : (is_duplicate hashFn r.content (some (directory.getD []))).1 = false := by
              simpa using hdup
            cases hw : env.writeExn with
            | some m2 =>
              rw [download_image_writeExn hashFn strHash env url directory r m2 henv hst hacc hdup2 hw] at h
              simp at h
            | none =>
              exact ⟨r, rfl, hst, hacc, rfl, hdup2,
                download_image_success_eq hashFn strHash env url directory r henv hst hacc hdup2 hw⟩

/-! ### Driver lemmas -/

/-- Exactly one of the three counters grows at each classification step. -/
theorem tally_update_total (t : Tally) (s : Bool) (m : String) :
    (tally_update t s m).success_count + (tally_update t s m).skip_count +
      (tally_update t s m).fail_count =
      t.success_count + t.skip_count + t.fail_count + 1 := by
  unfold tally_update
  split
  · simp
    omega
  · split <;> simp <;> omega

/-- Every URL of the list is classified exactly once: the driver counters
grow by the number of URLs, whatever each download did. -/
theorem main_loop_total (hashFn : Bytes → String) (strHash : String → Int)
    (jobs : List (String × Env)) (directory : Dir) (t : Tally) :
    ((main_loop hashFn strHash jobs directory t).1).success_count +
      ((main_loop hashFn strHash jobs directory t).1).skip_count +
      ((main_loop hashFn strHash jobs directory t).1).fail_count =
      t.success_count + t.skip_count + t.fail_count + jobs.length := by
  induction jobs generalizing directory t with
  | nil => simp [main_loop]
  | cons job rest ih =>
    obtain ⟨url, env⟩ := job
    simp only [main_loop]
    rw [ih, tally_update_total]
    simp only [List.length_cons]
    omega

/-- int() on the empty string raises. -/
theorem pyInt_empty : pyInt "" = none := by decide

/-! ### Claims about the header validator -/

/-- C1: the header validator accepts a response exactly when its
content-type begins with image/ (compared case-insensitively, as the source
lowercases the header first) and, when a content-length is declared and
denotes a number, that number is at most 50 MB; in particular every
response whose content-type is text/html is rejected, whatever its byte
content, since the validator never looks at the body.  The well-formedness
hypothesis of the first part keeps the declared length, when present and
nonempty, inside the domain of int(). -/
theorem C1_validator_accepts_iff :
    (∀ h : Headers,
      (∀ s, h.contentLength = some s → s ≠ "" → (pyInt s).isSome = true) →
      (accepted (validate_image_headers h) = true ↔
        (startsWithStr (lowerStr (h.contentType.getD "")) "image/" = true ∧
          ∀ s n, h.contentLength = some s → pyInt s = some n → n ≤ 50 * 1024 * 1024)))
    ∧ (∀ r : Response, r.headers.contentType = some "text/html" →
        accepted (validate_image_headers r.headers) = false) := by
  constructor
  · intro h hwf
    obtain ⟨ct, cl⟩ := h
    by_cases hct : startsWithStr (lowerStr (ct.getD "")) "image/" = true
    · cases cl with
      | none =>
        simp [validate_image_headers, accepted, hct]
      | some s =>
        by_cases hse : s = ""
        · subst hse
          constructor
          · intro _
            refine ⟨hct, ?_⟩
            intro s2 n2 hs2 hn2
            cases hs2
            rw [pyInt_empty] at hn2
            cases hn2
          · intro _
            simp [validate_image_headers, accepted, hct]
        · have hps := hwf s rfl hse
          obtain ⟨n, hn⟩ := Option.isSome_iff_exists.mp hps
          by_cases hbig : (52428800 : Int) < n
          · have hv : validate_image_headers ⟨ct, some s⟩ =
                .ok (false, "File size (" ++ toString (n / (1024 * 1024)) ++
                  "MB) exceeds safety limit of 50MB") := by
              simp [validate_image_headers, hct, hse, hn, hbig]
            rw [hv]
            constructor
            · intro hfalse
              exact absurd hfalse (by simp [accepted])
            · rintro ⟨-, hall⟩
              have h2 := hall s n rfl hn
              exfalso
              omega
          · have hv : validate_image_headers ⟨ct, some s⟩ = .ok (true, "Valid image headers") := by
              simp [validate_image_headers, hct, hse, hn, hbig]
            rw [hv]
            constructor
            · intro _
              refine ⟨hct, ?_⟩
              intro s2 n2 hs2 hn2
              cases hs2
              rw [hn] at hn2
              cases hn2
              omega
            · intro _
              rfl
    · simp [validate_image_headers, accepted, hct]
  · intro r hct
    unfold validate_image_headers
    rw [hct]
    rfl

/-- C1 witness: an image response whose declared length parses and is under
the limit is accepted. -/
theorem C1_witness :
    accepted (validate_image_headers ⟨some "image/png", some "100"⟩) = true :=
  (C1_validator_accepts_iff.1 ⟨some "image/png", some "100"⟩
    (by intro s hs _; cases hs; decide)).mpr
    ⟨by decide, by
      intro s n hs hn
      cases hs
      rw [show pyInt "100" = some 100 from by decide] at hn
      cases hn
      decide⟩

/-- C3 (amended): on every pair of header values the validator either
returns a decision with a nonempty reason, or raises ValueError, and the
raising inputs are exactly those whose content-type passes the image check
while the declared content-length is nonempty and not a numeral; it is a
pure function of the two header values. -/
theorem C3_validator_totality (h : Headers) :
    (∃ b msg, validate_image_headers h = .ok (b, msg) ∧ msg ≠ "") ∨
    (startsWithStr (lowerStr (h.contentType.getD "")) "image/" = true ∧
      ∃ s, h.contentLength = some s ∧ s ≠ "" ∧ pyInt s = none ∧
        validate_image_headers h = .error (.valueError s)) := by
  obtain ⟨ct, cl⟩ := h
  by_cases hct : startsWithStr (lowerStr (ct.getD "")) "image/" = true
  · cases cl with
    | none =>
      left
      exact ⟨true, "Valid image headers", by simp [validate_image_headers, hct], by decide⟩
    | some s =>
      by_cases hse : s = ""
      · subst hse
        left
        exact ⟨true, "Valid image headers", by simp [validate_image_headers, hct], by decide⟩
      · cases hp : pyInt s with
        | none =>
          right
          exact ⟨hct, s, rfl, hse, hp, by simp [validate_image_headers, hct, hse, hp]⟩
        | some n =>
          left
          by_cases hbig : (52428800 : Int) < n
          · refine ⟨false,
              "File size (" ++ toString (n / (1024 * 1024)) ++ "MB) exceeds safety limit of 50MB",
              by simp [validate_image_headers, hct, hse, hp, hbig], ?_⟩
            exact append_ne_empty _ _ (toList_append_ne_nil _ _ (by decide))
          · exact ⟨true, "Valid image headers",
              by simp [validate_image_headers, hct, hse, hp, hbig], by decide⟩
  · left
    refine ⟨false, "Content-Type " ++ lowerStr (ct.getD "") ++ " is not an image",
      by simp [validate_image_headers, hct], ?_⟩
    exact append_ne_empty _ _ (toList_append_ne_nil _ _ (by decide))

/-- C3 counterexample: on an image content-type with a non-numeric declared
length the validator raises ValueError instead of returning a decision, so
it is not total as claimed. -/
theorem C3_counterexample :
    validate_image_headers ⟨some "image/png", some "abc"⟩ = .error (.valueError "abc") := by
  rfl

/-- C3 witness: the dichotomy at a plain image header pair. -/
theorem C3_witness :
    (∃ b msg, validate_image_headers ⟨some "image/jpeg", none⟩ = .ok (b, msg) ∧ msg ≠ "") ∨
    (startsWithStr (lowerStr ((some "image/jpeg").getD "")) "image/" = true ∧
      ∃ s, (some "" : Option String) = some s ∧ s ≠ "" ∧ pyInt s = none ∧
        validate_image_headers ⟨some "image/jpeg", none⟩ = .error (.valueError s)) := by
  have := C3_validator_totality ⟨some "image/jpeg", none⟩
  simpa using this

/-- C10: with no Content-Length header, or an empty one, the validator
performs no size check at all: the two header states are indistinguishable
and acceptance is exactly the content-type test, whatever the body size. -/
theorem C10_no_content_length_no_size_check (ct : Option String) :
    validate_image_headers ⟨ct, none⟩ = validate_image_headers ⟨ct, some ""⟩ ∧
    accepted (validate_image_headers ⟨ct, none⟩) =
      startsWithStr (lowerStr (ct.getD "")) "image/" := by
  by_cases hct : startsWithStr (lowerStr (ct.getD "")) "image/" = true <;>
    simp [validate_image_headers, accepted, hct]

/-- C10 witness: the equivalence at a concrete content-type. -/
theorem C10_witness :
    validate_image_headers ⟨some "image/gif", none⟩ =
      validate_image_headers ⟨some "image/gif", some ""⟩ ∧
    accepted (validate_image_headers ⟨some "image/gif", none⟩) =
      startsWithStr (lowerStr ((some "image/gif").getD "")) "image/" :=
  C10_no_content_length_no_size_check (some "image/gif")

/-! ### Claims about filename derivation and duplicate detection -/

/-- C4: when the final path segment of the URL is present and carries a dot,
the resolver returns it unchanged; otherwise it returns the synthesized name
built from the URL hash modulo 10000 with the extension mapped from the
content-type, image/png giving .png and an unknown or absent content-type
falling back to .jpg. -/
theorem C4_filename_derivation (strHash : String → Int) (url : String) (ct : Option String) :
    (basename (urlPath url) ≠ "" → (basename (urlPath url)).toList.contains '.' = true →
      get_filename_from_url strHash url ct = basename (urlPath url))
    ∧ ((basename (urlPath url) = "" ∨ (basename (urlPath url)).toList.contains '.' = false) →
      (ct = some "image/png" →
        get_filename_from_url strHash url ct =
          "downloaded_image_" ++ toString (strHash url % 10000) ++ ".png")
      ∧ ((ct = none ∨ ct = some "" ∨ (∃ c, ct = some c ∧ mime_to_ext (lowerStr c) = none)) →
        get_filename_from_url strHash url ct =
          "downloaded_image_" ++ toString (strHash url % 10000) ++ ".jpg")) := by
  constructor
  · intro hne hdot
    unfold get_filename_from_url
    rw [if_neg]
    intro hor
    exact hor.elim hne (fun hc => hc hdot)
  · intro hor
    have hcond : basename (urlPath url) = "" ∨
        ¬ (basename (urlPath url)).toList.contains '.' = true :=
      hor.imp id (fun h hh => by rw [h] at hh; exact Bool.false_ne_true hh)
    constructor
    · rintro rfl
      unfold get_filename_from_url
      rw [if_pos hcond]
      rfl
    · rintro (rfl | rfl | ⟨c, rfl, hmime⟩)
      · unfold get_filename_from_url
        rw [if_pos hcond]
      · unfold get_filename_from_url
        rw [if_pos hcond]
        rfl
      · unfold get_filename_from_url
        rw [if_pos hcond]
        by_cases hc : c = ""
        · subst hc
          rfl
        · show "downloaded_image_" ++ toString (strHash url % 10000) ++
            (if c = "" then ".jpg" else (mime_to_ext (lowerStr c)).getD ".jpg") = _
          rw [if_neg hc, hmime]
          rfl

/-- C4 witness: the two example URLs of the spec. -/
theorem C4_witness :
    get_filename_from_url zeroHash "http://x/a.png" (some "image/png") = "a.png" ∧
    get_filename_from_url zeroHash "http://x/" (some "image/png") = "downloaded_image_0.png" := by
  constructor
  · exact ((C4_filename_derivation zeroHash "http://x/a.png" (some "image/png")).1
      (by decide) (by decide)).trans (by decide)
  · exact (((C4_filename_derivation zeroHash "http://x/" (some "image/png")).2
      (by decide)).1 rfl).trans (by decide)

/-- C5: the duplicate detector signals a match exactly when some regular
file of the directory listing has the digest of the candidate bytes, the
carried filename is the first such file in scan order, and a missed scan
carries no filename; the detector is a pure function of the candidate and
the listing. -/
theorem C5_is_duplicate_characterisation (hashFn : Bytes → String) (content : Bytes)
    (entries : List Entry) :
    ((is_duplicate hashFn content (some entries)).1 = true ↔
      ∃ e ∈ entries, e.isFile = true ∧ hashFn e.content = hashFn content)
    ∧ (is_duplicate hashFn content (some entries)).2 =
      (entries.find? (fun e => e.isFile && decide (hashFn e.content = hashFn content))).map
        Entry.name := by
  refine ⟨is_duplicate_fst_iff hashFn content entries, ?_⟩
  show (is_duplicate_scan hashFn (hashFn content) entries).2 = _
  rw [is_duplicate_scan_eq]

/-- C5 witness: a listing with a non-regular entry of equal digest before a
regular match: the match is signalled and names the first regular file. -/
theorem C5_witness :
    (is_duplicate lenHash [1, 2]
      (some [⟨"x.bin", false, [9, 9]⟩, ⟨"a.png", true, [3, 4]⟩, ⟨"b.png", true, [5, 6]⟩])).1 =
      true ∧
    (is_duplicate lenHash [1, 2]
      (some [⟨"x.bin", false, [9, 9]⟩, ⟨"a.png", true, [3, 4]⟩, ⟨"b.png", true, [5, 6]⟩])).2 =
      some "a.png" := by
  have h := C5_is_duplicate_characterisation lenHash [1, 2]
    [⟨"x.bin", false, [9, 9]⟩, ⟨"a.png", true, [3, 4]⟩, ⟨"b.png", true, [5, 6]⟩]
  exact ⟨h.1.mpr ⟨⟨"a.png", true, [3, 4]⟩, by decide, by decide, by decide⟩,
    h.2.trans (by decide)⟩

/-! ### Claims about the download operation -/

/-- C2 (amended): a response declaring a parsed content-length above 50 MB
is rejected by validation strictly before the write step: the result is a
validation failure, no file is written, and the directory listing equals
what makedirs left; the one filesystem effect preceding validation is the
creation of the directory itself when it was absent. -/
theorem C2_oversize_rejected_before_write (hashFn : Bytes → String) (strHash : String → Int)
    (env : Env) (url : String) (directory : Dir) (cd : Bool) (r : Response) (s : String) (n : Int)
    (hf : env.fetch = .response r) (hs : ¬ (400 ≤ r.status ∧ r.status ≤ 599))
    (hl : r.headers.contentLength = some s) (hn : pyInt s = some n)
    (hbig : 50 * 1024 * 1024 < n) :
    (download_image hashFn strHash env url directory cd).1.1 = false ∧
    startsWithStr (download_image hashFn strHash env url directory cd).1.2
      "✗ Validation failed" = true ∧
    (download_image hashFn strHash env url directory cd).2 = some (directory.getD []) := by
  have hbig2 : (52428800 : Int) < n := by omega
  have hval : ∃ m, validate_image_headers r.headers = .ok (false, m) := by
    by_cases hct : startsWithStr (lowerStr (r.headers.contentType.getD "")) "image/" = true
    · have hse : s ≠ "" := by
        intro he
        rw [he, pyInt_empty] at hn
        cases hn
      refine ⟨"File size (" ++ toString (n / (1024 * 1024)) ++
        "MB) exceeds safety limit of 50MB", ?_⟩
      simp [validate_image_headers, hct, hl, hse, hn, hbig2]
    · refine ⟨"Content-Type " ++ lowerStr (r.headers.contentType.getD "") ++ " is not an image", ?_⟩
      simp [validate_image_headers, hct]
  obtain ⟨m, hm⟩ := hval
  rw [download_image_response_eq hashFn strHash env url directory cd r hf,
    handle_response_invalid hashFn strHash url (directory.getD []) r env.writeExn cd m hs hm]
  refine ⟨rfl, ?_, rfl⟩
  show startsWithStr ("✗ Validation failed: " ++ m) "✗ Validation failed" = true
  exact startsWithStr_append_left _ _ _ (by decide)

/-- C2 counterexample: with the target directory absent and an oversized
declared length, the body is indeed rejected by validation, yet the
filesystem state is not unchanged: the download has created the directory. -/
theorem C2_counterexample :
    (download_image lenHash zeroHash
      ⟨.response ⟨200, "OK", ⟨some "image/png", some "99999999"⟩, [1]⟩, none⟩
      "http://x/a.png" none true).1.1 = false ∧
    startsWithStr (download_image lenHash zeroHash
      ⟨.response ⟨200, "OK", ⟨some "image/png", some "99999999"⟩, [1]⟩, none⟩
      "http://x/a.png" none true).1.2 "✗ Validation failed" = true ∧
    (download_image lenHash zeroHash
      ⟨.response ⟨200, "OK", ⟨some "image/png", some "99999999"⟩, [1]⟩, none⟩
      "http://x/a.png" none true).2 = some [] ∧
    (some [] : Dir) ≠ (none : Dir) := by
  decide

/-- C2 witness: an oversized declaration into an existing directory leaves
its listing untouched. -/
theorem C2_witness :
    (download_image lenHash zeroHash
      ⟨.response ⟨200, "OK", ⟨some "image/png", some "60000000"⟩, [1]⟩, none⟩
      "http://x/a.png" (some [⟨"keep.png", true, [1, 2, 3]⟩]) true).1.1 = false ∧
    startsWithStr (download_image lenHash zeroHash
      ⟨.response ⟨200, "OK", ⟨some "image/png", some "60000000"⟩, [1]⟩, none⟩
      "http://x/a.png" (some [⟨"keep.png", true, [1, 2, 3]⟩]) true).1.2
      "✗ Validation failed" = true ∧
    (download_image lenHash zeroHash
      ⟨.response ⟨200, "OK", ⟨some "image/png", some "60000000"⟩, [1]⟩, none⟩
      "http://x/a.png" (some [⟨"keep.png", true, [1, 2, 3]⟩]) true).2 =
      some [⟨"keep.png", true, [1, 2, 3]⟩] := by
  have h := C2_oversize_rejected_before_write lenHash zeroHash
    ⟨.response ⟨200, "OK", ⟨some "image/png", some "60000000"⟩, [1]⟩, none⟩
    "http://x/a.png" (some [⟨"keep.png", true, [1, 2, 3]⟩]) true
    ⟨200, "OK", ⟨some "image/png", some "60000000"⟩, [1]⟩ "60000000" 60000000
    rfl (by decide) rfl (by decide) (by decide)
  exact ⟨h.1, h.2.1, h.2.2⟩

/-! ### Claims about duplicates across downloads and the driver -/

/-- After a successful first download, a second accepted response with the
same bytes hits the duplicate scan. -/
theorem second_download_hits_duplicate (hashFn : Bytes → String) (strHash : String → Int)
    (env1 env2 : Env) (url1 url2 : String) (directory : Dir) (r1 r2 : Response)
    (hf1 : env1.fetch = .response r1) (hf2 : env2.fetch = .response r2)
    (h1 : (download_image hashFn strHash env1 url1 directory true).1.1 = true)
    (hs2 : ¬ (400 ≤ r2.status ∧ r2.status ≤ 599))
    (hv2 : accepted (validate_image_headers r2.headers) = true)
    (hc : r2.content = r1.content) :
    (download_image hashFn strHash env2 url2
        (download_image hashFn strHash env1 url1 directory true).2 true).1.1 = false ∧
    strContainsSub (lowerStr (download_image hashFn strHash env2 url2
        (download_image hashFn strHash env1 url1 directory true).2 true).1.2)
      "duplicate" = true := by
  obtain ⟨r1b, hf1b, -, -, -, -, heq1⟩ :=
    download_image_success_inv hashFn strHash env1 url1 directory h1
  rw [hf1] at hf1b
  cases hf1b
  set fn := get_filename_from_url strHash url1 r1.headers.contentType with hfn
  have hpost : (download_image hashFn strHash env1 url1 directory true).2 =
      some (writeFile (directory.getD []) fn r1.content) := by
    rw [heq1]
  have hdup : (is_duplicate hashFn r2.content
      (some (((download_image hashFn strHash env1 url1 directory true).2).getD []))).1 = true := by
    rw [hpost]
    exact (is_duplicate_fst_iff hashFn r2.content _).mpr
      ⟨⟨fn, true, r1.content⟩, writeFile_mem _ _ _, rfl, by rw [hc]⟩
  have h2 := download_image_dup_eq hashFn strHash env2 url2
    (download_image hashFn strHash env1 url1 directory true).2 r2 hf2 hs2 hv2 hdup
  rw [h2]
  exact ⟨rfl, dup_message_contains _⟩

/-- C6 (amended): when the second response also has a non-error status and
validator-accepted headers, identical bytes after a successful first
download into the same directory produce the duplicate-skip outcome, tallied
as one skip by the driver; and fetching the same accepted URL twice into a
fresh directory tallies one success, one skip and no failure. -/
theorem C6_duplicate_second_download :
    (∀ (hashFn : Bytes → String) (strHash : String → Int) (env1 env2 : Env)
        (url1 url2 : String) (directory : Dir) (r1 r2 : Response) (t : Tally),
      env1.fetch = .response r1 → env2.fetch = .response r2 →
      (download_image hashFn strHash env1 url1 directory true).1.1 = true →
      ¬ (400 ≤ r2.status ∧ r2.status ≤ 599) →
      accepted (validate_image_headers r2.headers) = true →
      r2.content = r1.content →
      ((download_image hashFn strHash env2 url2
          (download_image hashFn strHash env1 url1 directory true).2 true).1.1 = false ∧
        tally_update t
          (download_image hashFn strHash env2 url2
            (download_image hashFn strHash env1 url1 directory true).2 true).1.1
          (download_image hashFn strHash env2 url2
            (download_image hashFn strHash env1 url1 directory true).2 true).1.2 =
          { t with skip_count := t.skip_count + 1 }))
    ∧ (∀ (hashFn : Bytes → String) (strHash : String → Int) (url : String) (env : Env)
        (r : Response),
      env.fetch = .response r → ¬ (400 ≤ r.status ∧ r.status ≤ 599) →
      accepted (validate_image_headers r.headers) = true → env.writeExn = none →
      (main_loop hashFn strHash [(url, env), (url, env)] (some []) ⟨0, 0, 0⟩).1 = ⟨1, 1, 0⟩) := by
  constructor
  · intro hashFn strHash env1 env2 url1 url2 directory r1 r2 t hf1 hf2 h1 hs2 hv2 hc
    obtain ⟨hflag, hmsg⟩ := second_download_hits_duplicate hashFn strHash env1 env2 url1 url2
      directory r1 r2 hf1 hf2 h1 hs2 hv2 hc
    refine ⟨hflag, ?_⟩
    rw [hflag]
    unfold tally_update
    rw [if_neg (by exact Bool.false_ne_true), if_pos hmsg]
  · intro hashFn strHash url env r hf hst hv hw
    have hd0 : (is_duplicate hashFn r.content (some (((some ([] : List Entry))).getD []))).1 =
        false := rfl
    have h1 := download_image_success_eq hashFn strHash env url (some []) r hf hst hv hd0 hw
    have h1flag : (download_image hashFn strHash env url (some []) true).1.1 = true := by
      rw [h1]
    obtain ⟨hflag2, hmsg2⟩ := second_download_hits_duplicate hashFn strHash env env url url
      (some []) r r hf hf h1flag hst hv rfl
    have hstep : ∀ (t : Tally) (m : String), tally_update t true m =
        { t with success_count := t.success_count + 1 } := by
      intro t m
      unfold tally_update
      rw [if_pos rfl]
    have hskip : ∀ (t : Tally) (m : String), strContainsSub (lowerStr m) "duplicate" = true →
        tally_update t false m = { t with skip_count := t.skip_count + 1 } := by
      intro t m hm
      unfold tally_update
      rw [if_neg (by exact Bool.false_ne_true), if_pos hm]
    simp only [main_loop]
    rw [h1flag, hstep, hflag2, hskip _ _ hmsg2]

/-- C6 counterexample: a second response carrying the very bytes written by
a successful first download, but with content-type text/html, is not
reported as a duplicate-skip: header validation rejects it first. -/
theorem C6_counterexample :
    (download_image lenHash zeroHash
      ⟨.response ⟨200, "OK", ⟨some "image/png", none⟩, [7, 8]⟩, none⟩
      "http://x/a.png" (some []) true).1.1 = true ∧
    (download_image lenHash zeroHash
      ⟨.response ⟨200, "OK", ⟨some "text/html", none⟩, [7, 8]⟩, none⟩
      "http://x/a.png"
      (download_image lenHash zeroHash
        ⟨.response ⟨200, "OK", ⟨some "image/png", none⟩, [7, 8]⟩, none⟩
        "http://x/a.png" (some []) true).2 true).1.1 = false ∧
    strContainsSub (lowerStr (download_image lenHash zeroHash
      ⟨.response ⟨200, "OK", ⟨some "text/html", none⟩, [7, 8]⟩, none⟩
      "http://x/a.png"
      (download_image lenHash zeroHash
        ⟨.response ⟨200, "OK", ⟨some "image/png", none⟩, [7, 8]⟩, none⟩
        "http://x/a.png" (some []) true).2 true).1.2) "duplicate" = false := by
  decide

/-- C6 witness: the twice-fetched scenario at a concrete accepted response. -/
theorem C6_witness :
    (main_loop lenHash zeroHash
      [("http://x/a.png", ⟨.response ⟨200, "OK", ⟨some "image/png", none⟩, [1, 2]⟩, none⟩),
       ("http://x/a.png", ⟨.response ⟨200, "OK", ⟨some "image/png", none⟩, [1, 2]⟩, none⟩)]
      (some []) ⟨0, 0, 0⟩).1 = ⟨1, 1, 0⟩ :=
  C6_duplicate_second_download.2 lenHash zeroHash "http://x/a.png"
    ⟨.response ⟨200, "OK", ⟨some "image/png", none⟩, [1, 2]⟩, none⟩
    ⟨200, "OK", ⟨some "image/png", none⟩, [1, 2]⟩ rfl (by decide) (by decide) rfl

/-- C7 (amended): download_image returns a success flag and a message, not
a three-valued outcome: the duplicate-skip result carries the same false
flag as every failure, and the driver tells skips from failures only by
whether the lowercased message contains the word duplicate. -/
theorem C7_outcome_classification :
    (∀ (hashFn : Bytes → String) (strHash : String → Int) (env : Env) (url : String)
        (directory : Dir) (r : Response),
      env.fetch = .response r → ¬ (400 ≤ r.status ∧ r.status ≤ 599) →
      accepted (validate_image_headers r.headers) = true →
      (is_duplicate hashFn r.content (some (directory.getD []))).1 = true →
      (download_image hashFn strHash env url directory true).1.1 = false)
    ∧ (∀ (hashFn : Bytes → String) (strHash : String → Int) (env : Env) (url : String)
        (directory : Dir) (cd : Bool),
      fetchFailed env.fetch = true →
      (download_image hashFn strHash env url directory cd).1.1 = false)
    ∧ (∀ (t : Tally) (s : Bool) (m : String),
      (tally_update t s m).skip_count = t.skip_count + 1 ↔
        (s = false ∧ strContainsSub (lowerStr m) "duplicate" = true)) := by
  refine ⟨?_, ?_, ?_⟩
  · intro hashFn strHash env url directory r hf hst hv hd
    rw [download_image_dup_eq hashFn strHash env url directory r hf hst hv hd]
  · intro hashFn strHash env url directory cd h
    exact (download_image_fetchFailed hashFn strHash env url directory cd h).1
  · intro t s m
    unfold tally_update
    cases s with
    | true =>
      simp only [if_pos rfl]
      show t.skip_count = t.skip_count + 1 ↔
        (true = false ∧ strContainsSub (lowerStr m) "duplicate" = true)
      constructor
      · intro h
        exfalso
        omega
      · rintro ⟨h, -⟩
        cases h
    | false =>
      rw [if_neg (by exact Bool.false_ne_true)]
      by_cases hm2 : strContainsSub (lowerStr m) "duplicate" = true
      · rw [if_pos hm2]
        simp [hm2]
      · rw [if_neg hm2]
        show t.skip_count = t.skip_count + 1 ↔
          (false = false ∧ strContainsSub (lowerStr m) "duplicate" = true)
        constructor
        · intro h
          exfalso
          omega
        · rintro ⟨-, h⟩
          exact absurd h hm2

/-- C7 counterexample: a request error, a genuine failure-with-reason, whose
message happens to contain the word duplicate, carries the same false flag
as a duplicate-skip and is tallied by the driver as a skip: the outcomes are
separated only by message text, not by a distinct outcome value. -/
theorem C7_counterexample :
    (download_image lenHash zeroHash ⟨.requestError "duplicate entry", none⟩
      "http://x/a.png" (some []) true).1.1 = false ∧
    (main_loop lenHash zeroHash
      [("http://x/a.png", ⟨.requestError "duplicate entry", none⟩)]
      (some []) ⟨0, 0, 0⟩).1 = ⟨0, 1, 0⟩ := by
  decide

/-- C7 witness: a duplicate hit at a concrete directory returns the false
flag shared with failures. -/
theorem C7_witness :
    (download_image lenHash zeroHash
      ⟨.response ⟨200, "OK", ⟨some "image/png", none⟩, [3, 4]⟩, none⟩
      "http://x/a.png" (some [⟨"old.png", true, [5, 6]⟩]) true).1.1 = false :=
  C7_outcome_classification.1 lenHash zeroHash
    ⟨.response ⟨200, "OK", ⟨some "image/png", none⟩, [3, 4]⟩, none⟩
    "http://x/a.png" (some [⟨"old.png", true, [5, 6]⟩])
    ⟨200, "OK", ⟨some "image/png", none⟩, [3, 4]⟩ rfl (by decide) (by decide) (by decide)

/-- C8: every per-URL error class of the source — request-level exceptions
(timeout, connection error, request error, other exceptions), HTTP status
errors, the exception escaping the validator, and a raising file write — is
caught inside download_image and turned into a failed result carrying a
nonempty message, and the driver classifies every URL exactly once, so its
three counters always grow by the number of URLs processed. -/
theorem C8_errors_contained :
    (∀ (hashFn : Bytes → String) (strHash : String → Int) (env : Env) (url : String)
        (directory : Dir) (cd : Bool),
      fetchFailed env.fetch = true →
      (download_image hashFn strHash env url directory cd).1.1 = false ∧
      (download_image hashFn strHash env url directory cd).1.2 ≠ "")
    ∧ (∀ (hashFn : Bytes → String) (strHash : String → Int) (env : Env) (url : String)
        (directory : Dir) (cd : Bool) (r : Response),
      env.fetch = .response r → 400 ≤ r.status → r.status ≤ 599 →
      (download_image hashFn strHash env url directory cd).1.1 = false ∧
      (download_image hashFn strHash env url directory cd).1.2 ≠ "")
    ∧ (∀ (hashFn : Bytes → String) (strHash : String → Int) (env : Env) (url : String)
        (directory : Dir) (cd : Bool) (r : Response) (e : PyExn),
      env.fetch = .response r → ¬ (400 ≤ r.status ∧ r.status ≤ 599) →
      validate_image_headers r.headers = .error e →
      (download_image hashFn strHash env url directory cd).1.1 = false ∧
      (download_image hashFn strHash env url directory cd).1.2 ≠ "")
    ∧ (∀ (hashFn : Bytes → String) (strHash : String → Int) (env : Env) (url : String)
        (directory : Dir) (r : Response) (m : String),
      env.fetch = .response r → ¬ (400 ≤ r.status ∧ r.status ≤ 599) →
      accepted (validate_image_headers r.headers) = true →
      (is_duplicate hashFn r.content (some (directory.getD []))).1 = false →
      env.writeExn = some m →
      download_image hashFn strHash env url directory true =
        ((false, "✗ File error: Could not save image - " ++ m), some (directory.getD [])))
    ∧ (∀ (hashFn : Bytes → String) (strHash : String → Int) (jobs : List (String × Env))
        (directory : Dir) (t : Tally),
      ((main_loop hashFn strHash jobs directory t).1).success_count +
        ((main_loop hashFn strHash jobs directory t).1).skip_count +
        ((main_loop hashFn strHash jobs directory t).1).fail_count =
        t.success_count + t.skip_count + t.fail_count + jobs.length) := by
  refine ⟨?_, ?_, ?_, ?_, ?_⟩
  · intro hashFn strHash env url directory cd h
    exact ⟨(download_image_fetchFailed hashFn strHash env url directory cd h).1,
      (download_image_fetchFailed hashFn strHash env url directory cd h).2.1⟩
  · intro hashFn strHash env url directory cd r hf h4 h5
    exact ⟨(download_image_httpError hashFn strHash env url directory cd r hf h4 h5).1,
      (download_image_httpError hashFn strHash env url directory cd r hf h4 h5).2.1⟩
  · intro hashFn strHash env url directory cd r e hf hs he
    exact ⟨(download_image_validatorExn hashFn strHash env url directory cd r e hf hs he).1,
      (download_image_validatorExn hashFn strHash env url directory cd r e hf hs he).2.1⟩
  · intro hashFn strHash env url directory r m hf hs hv hd hw
    exact download_image_writeExn hashFn strHash env url directory r m hf hs hv hd hw
  · intro hashFn strHash jobs directory t
    exact main_loop_total hashFn strHash jobs directory t

/-- C8 witness: a timeout is a contained failure with a message. -/
theorem C8_witness :
    (download_image lenHash zeroHash ⟨.timeout, none⟩ "http://x/a.png" (some []) true).1.1 =
      false ∧
    (download_image lenHash zeroHash ⟨.timeout, none⟩ "http://x/a.png" (some []) true).1.2 ≠
      "" :=
  C8_errors_contained.1 lenHash zeroHash ⟨.timeout, none⟩ "http://x/a.png" (some []) true rfl

/-- C9 (amended): with duplicate checking on, a completed download
guarantees that no regular file of the prior listing carried the digest of
the downloaded bytes, so byte-identical content is never written twice; it
does not guarantee name uniqueness: an existing file of different content
under the derived filename is overwritten. -/
theorem C9_no_identical_content_rewrite (hashFn : Bytes → String) (strHash : String → Int)
    (env : Env) (url : String) (directory : Dir) (r : Response)
    (hf : env.fetch = .response r)
    (hsucc : (download_image hashFn strHash env url directory true).1.1 = true) :
    ∀ e ∈ directory.getD [], e.isFile = true → hashFn e.content ≠ hashFn r.content := by
  obtain ⟨r2, hf2, -, -, -, hdup, -⟩ :=
    download_image_success_inv hashFn strHash env url directory hsucc
  rw [hf] at hf2
  cases hf2
  intro e he hfile heq
  have hd : (is_duplicate hashFn r.content (some (directory.getD []))).1 = true :=
    (is_duplicate_fst_iff hashFn r.content (directory.getD [])).mpr ⟨e, he, hfile, heq⟩
  rw [hd] at hdup
  exact Bool.noConfusion hdup

/-- C9 counterexample: a successful download overwrites an existing file of
different byte content that happens to live under the derived filename, so
filename uniqueness is not an invariant the duplicate skip maintains. -/
theorem C9_counterexample :
    (download_image lenHash zeroHash
      ⟨.response ⟨200, "OK", ⟨some "image/png", none⟩, [7, 8]⟩, none⟩
      "http://x/a.png" (some [⟨"a.png", true, [7]⟩]) true).1.1 = true ∧
    (download_image lenHash zeroHash
      ⟨.response ⟨200, "OK", ⟨some "image/png", none⟩, [7, 8]⟩, none⟩
      "http://x/a.png" (some [⟨"a.png", true, [7]⟩]) true).2 =
      some [⟨"a.png", true, [7, 8]⟩] := by
  decide

/-- C9 witness: the guarantee applied to a concrete prior listing separates
the digests of the stored and downloaded bytes. -/
theorem C9_witness : lenHash [5] ≠ lenHash [7, 8] := by
  have h := C9_no_identical_content_rewrite lenHash zeroHash
    ⟨.response ⟨200, "OK", ⟨some "image/png", none⟩, [7, 8]⟩, none⟩
    "http://x/a.png" (some [⟨"b.png", true, [5]⟩])
    ⟨200, "OK", ⟨some "image/png", none⟩, [7, 8]⟩ rfl (by decide)
  exact h ⟨"b.png", true, [5]⟩ (by decide) rfl

end Fetcher

